import Mathlib

/-!
Verification development for the `Septahadif/trading` Cloudflare-worker
sources.  The repository contains two JavaScript variants of one pipeline:

* `src/index.js` — variant B: `callAI`, `validateTradingData`,
  `filterSignal`, `parseAIResponse`, `sendTelegramAlert`, `handleRequest`,
  with a 30 s result cache and a `confidence` field;
* `src/unnamed/part_000` — variant A: class `TradingAI`
  (`callAI`, `calculateDerivedValues`, `buildAIPrompt`, `validateInputs`,
  `getSessionType`, `sanitizeForPrompt`, `generateFallbackSignal`,
  `tryParseAI`), `TelegramService`, and `TradingWorker.handle` with a 12 s
  rate limiter.

JavaScript numbers are embedded as exact rationals extended with the IEEE
special values `Infinity`, `-Infinity` and `NaN`; binary rounding and the
sign of zero are not modelled (no claim depends on them).  JavaScript
values are embedded as the inductive `JVal`; `JSON.parse` is embedded as a
genuine fuel-based JSON parser.  External `fetch` calls are modelled by an
explicit outcome (`FetchOutcome`) passed to the embedded control flow, and
wall-clock readings (`Date.now()`, `getUTCHours()`) are explicit
parameters.
-/

set_option maxRecDepth 100000

namespace Trading

/-! Kernel-reducible rational arithmetic.  `Rat.add`, `Rat.mul`, `Rat.sub`
and `Rat.inv` are irreducible in the ambient library, which would stop
concrete witnesses from evaluating; these wrappers compute the same
values through `Rat.divInt`. -/

/-- Exact rational addition (agrees with `+`). -/
def ratAdd (a b : ℚ) : ℚ := Rat.divInt (a.num * b.den + b.num * a.den) (a.den * b.den)

/-- Exact rational subtraction (agrees with `-`). -/
def ratSub (a b : ℚ) : ℚ := Rat.divInt (a.num * b.den - b.num * a.den) (a.den * b.den)

/-- Exact rational multiplication (agrees with `*`). -/
def ratMul (a b : ℚ) : ℚ := Rat.divInt (a.num * b.num) (a.den * b.den)

/-- Exact rational division (agrees with `/` for nonzero divisors). -/
def ratDiv (a b : ℚ) : ℚ := Rat.divInt (a.num * b.den) (a.den * b.num)

/-- A JavaScript number: an exact rational or one of the IEEE special
values.  Floating-point rounding is not modelled; arithmetic on finite
values is exact. -/
inductive JNum where
  | fin (q : ℚ)
  | inf
  | ninf
  | nan
  deriving DecidableEq

namespace JNum

/-- `isNaN` on a JS number. -/
def isNaN : JNum → Bool
  | nan => true
  | _ => false

/-- JS `<` on numbers: any comparison involving `NaN` is false. -/
def lt : JNum → JNum → Bool
  | fin a, fin b => a < b
  | fin _, inf => true
  | ninf, fin _ => true
  | ninf, inf => true
  | _, _ => false

/-- JS `<=` on numbers: false when either side is `NaN`, otherwise the
negation of the reversed `<`. -/
def le (a b : JNum) : Bool :=
  !a.isNaN && !b.isNaN && !(lt b a)

/-- JS `>` on numbers. -/
def gt (a b : JNum) : Bool := lt b a

/-- JS `>=` on numbers. -/
def ge (a b : JNum) : Bool := le b a

/-- Negation of a JS number. -/
def neg : JNum → JNum
  | fin q => fin (-q)
  | inf => ninf
  | ninf => inf
  | nan => nan

/-- IEEE-style addition on the extended numbers. -/
def add : JNum → JNum → JNum
  | nan, _ => nan
  | _, nan => nan
  | fin a, fin b => fin (ratAdd a b)
  | inf, ninf => nan
  | ninf, inf => nan
  | inf, _ => inf
  | _, inf => inf
  | ninf, _ => ninf
  | _, ninf => ninf

/-- IEEE-style subtraction on the extended numbers. -/
def sub (a b : JNum) : JNum := add a (neg b)

/-- IEEE-style multiplication on the extended numbers (`0 * ±∞ = NaN`). -/
def mul : JNum → JNum → JNum
  | nan, _ => nan
  | _, nan => nan
  | fin a, fin b => fin (ratMul a b)
  | fin a, inf => if 0 < a then inf else if a < 0 then ninf else nan
  | inf, fin a => if 0 < a then inf else if a < 0 then ninf else nan
  | fin a, ninf => if 0 < a then ninf else if a < 0 then inf else nan
  | ninf, fin a => if 0 < a then ninf else if a < 0 then inf else nan
  | inf, inf => inf
  | inf, ninf => ninf
  | ninf, inf => ninf
  | ninf, ninf => inf

/-- IEEE-style division: `x / 0` is `±Infinity` for nonzero finite `x`
and `NaN` for `x = 0`; `±∞ / ±∞` is `NaN`.  (The sign of zero is not
modelled, so division by a negative zero is not distinguished.) -/
def div : JNum → JNum → JNum
  | nan, _ => nan
  | _, nan => nan
  | fin a, fin b =>
      if b = 0 then (if 0 < a then inf else if a < 0 then ninf else nan)
      else fin (ratDiv a b)
  | fin _, inf => fin 0
  | fin _, ninf => fin 0
  | inf, fin b => if 0 ≤ b then inf else ninf
  | ninf, fin b => if 0 ≤ b then ninf else inf
  | _, _ => nan

end JNum

/-- A JavaScript value, restricted to the data shapes this program
manipulates.  Arrays index only by position here; named properties of
primitives other than those the program reads are not modelled. -/
inductive JVal where
  | undefined
  | null
  | bool (b : Bool)
  | num (n : JNum)
  | str (s : String)
  | arr (elems : List JVal)
  | obj (fields : List (String × JVal))

/-- JS truthiness: `undefined`, `null`, `false`, `±0`, `NaN` and `""` are
falsy, everything else is truthy. -/
def truthy : JVal → Bool
  | .undefined => false
  | .null => false
  | .bool b => b
  | .num (.fin q) => q ≠ 0
  | .num .nan => false
  | .num _ => true
  | .str s => s ≠ ""
  | .arr _ => true
  | .obj _ => true

/-- `typeof v === "number"`. -/
def isNumberV : JVal → Bool
  | .num _ => true
  | _ => false

/-- `typeof v === "string"`. -/
def isStringV : JVal → Bool
  | .str _ => true
  | _ => false

/-- Last binding of a key in an association list; JS objects keep the
last duplicate key, and `JSON.parse` builds objects in source order. -/
def getLastField : List (String × JVal) → String → Option JVal
  | [], _ => none
  | (k, v) :: rest, key =>
    match getLastField rest key with
    | some r => some r
    | none => if k = key then some v else none

/-- Property access `v[key]`: `none` models the `TypeError` raised on
`null`/`undefined` receivers; on other primitives the named properties
this program reads are all absent, i.e. `undefined`. -/
def getProp : JVal → String → Option JVal
  | .null, _ => none
  | .undefined, _ => none
  | .obj fs, k => some ((getLastField fs k).getD .undefined)
  | _, _ => some .undefined

/-- Optional chaining `v?.[i]` for array indices (non-arrays yield
`undefined`; numeric indexing of objects is via the decimal key). -/
def optIndex : JVal → ℕ → JVal
  | .arr xs, i => (xs.get? i).getD .undefined
  | .obj fs, i => (getLastField fs (toString i)).getD .undefined
  | _, _ => .undefined

/-- Optional chaining `v?.key`: nullish receivers short-circuit to
`undefined` instead of throwing. -/
def optChain (v : JVal) (k : String) : JVal :=
  match v with
  | .null => .undefined
  | .undefined => .undefined
  | _ => (getProp v k).getD .undefined

/-- Decimal exponent that makes `10^e` divisible by `den`, if one of at
most 30 exists (i.e. `den = 2^a * 5^b` with small `a`, `b`). -/
def decExp (den : ℕ) : Option ℕ :=
  (List.range 31).find? (fun e => 10 ^ e % den = 0)

/-- JS decimal printing of a rational whose denominator is a product of
2s and 5s (the exact values a double can hold print this way); other
rationals — which cannot arise from exact double arithmetic — print as a
fraction marker.  Exponential notation for very large/small magnitudes is
not modelled (no claim exercises it). -/
def qToString (q : ℚ) : String :=
  let sgn := if q < 0 then "-" else ""
  let n := q.num.natAbs
  let d := q.den
  match decExp d with
  | some 0 => sgn ++ toString n
  | some e =>
    let m := n * 10 ^ e / d
    let ip := m / 10 ^ e
    let fp := m % 10 ^ e
    let fpStr := toString fp
    let pad : String := ⟨List.replicate (e - fpStr.length) '0'⟩
    sgn ++ toString ip ++ "." ++ pad ++ fpStr
  | none => sgn ++ toString n ++ "/" ++ toString d

/-- JS `ToString` on a number. -/
def jnToString : JNum → String
  | .fin q => qToString q
  | .inf => "Infinity"
  | .ninf => "-Infinity"
  | .nan => "NaN"

mutual
/-- JS `ToString` on a value (`String(v)` / template interpolation).
Objects print as `[object Object]`; arrays join their elements with
commas, printing nullish elements as the empty string. -/
def toStr : JVal → String
  | .undefined => "undefined"
  | .null => "null"
  | .bool true => "true"
  | .bool false => "false"
  | .num n => jnToString n
  | .str s => s
  | .arr xs => toStrJoin xs
  | .obj _ => "[object Object]"

/-- `Array.prototype.join(",")` as used by array-to-string coercion. -/
def toStrJoin : List JVal → String
  | [] => ""
  | [v] => toStrElem v
  | v :: rest => toStrElem v ++ "," ++ toStrJoin rest
termination_by structural l => l

/-- One element of an array join: `null`/`undefined` become `""`, the
rest print as `toStr` does. -/
def toStrElem : JVal → String
  | .undefined => ""
  | .null => ""
  | .bool true => "true"
  | .bool false => "false"
  | .num n => jnToString n
  | .str s => s
  | .arr xs => toStrJoin xs
  | .obj _ => "[object Object]"
termination_by structural v => v
end

/-- The whitespace characters `String.prototype.trim` strips (the ASCII
ones plus NBSP; rarer Unicode spaces are not modelled). -/
def isJsWs (c : Char) : Bool :=
  c = ' ' || c = '\t' || c = '\n' || c = '\r' || c = '\x0b' || c = '\x0c' || c = ' '

/-- `String.prototype.trim()`. -/
def jsTrim (s : String) : String :=
  ⟨((s.data.dropWhile isJsWs).reverse.dropWhile isJsWs).reverse⟩

/-- ASCII decimal digit test. -/
def isDigitC (c : Char) : Bool := '0' ≤ c && c ≤ '9'

/-- Value of a digit string. -/
def digitsToNat (ds : List Char) : ℕ :=
  ds.foldl (fun acc c => acc * 10 + (c.toNat - 48)) 0

/-- Core of `Number(string)` after trimming: an optional sign followed by
`Infinity` or a decimal literal (`digits[.digits]`, `.digits`, optional
exponent), consuming the whole string.  Hex/octal/binary literals are not
modelled. -/
def strToNumCore (cs : List Char) : Option JNum :=
  let (neg, cs1) : Bool × List Char :=
    match cs with
    | '-' :: r => (true, r)
    | '+' :: r => (false, r)
    | _ => (false, cs)
  match cs1 with
  | ['I', 'n', 'f', 'i', 'n', 'i', 't', 'y'] =>
    some (if neg then .ninf else .inf)
  | _ =>
    let ids := cs1.takeWhile isDigitC
    let r1 := cs1.dropWhile isDigitC
    let (fds, r2) : List Char × List Char :=
      match r1 with
      | '.' :: r => (r.takeWhile isDigitC, r.dropWhile isDigitC)
      | _ => ([], r1)
    if ids.isEmpty && fds.isEmpty && r1 == cs1 then none
    else if ids.isEmpty && fds.isEmpty then none
    else
      let expPart : Option (ℤ × List Char) :=
        match r2 with
        | 'e' :: r | 'E' :: r =>
          let (esgn, r3) : ℤ × List Char :=
            match r with
            | '+' :: rr => (1, rr)
            | '-' :: rr => (-1, rr)
            | _ => (1, r)
          let eds := r3.takeWhile isDigitC
          if eds.isEmpty then none
          else some (esgn * (digitsToNat eds : ℤ), r3.dropWhile isDigitC)
        | _ => some (0, r2)
      match expPart with
      | none => none
      | some (ex, rest) =>
        if !rest.isEmpty then none
        else
          let mant : ℚ :=
            ratAdd (digitsToNat ids : ℚ) (mkRat (digitsToNat fds) (10 ^ fds.length))
          let mag : ℚ :=
            if 0 ≤ ex then ratMul mant (((10 : ℕ) ^ ex.toNat : ℕ) : ℚ)
            else ratDiv mant (((10 : ℕ) ^ (-ex).toNat : ℕ) : ℚ)
          some (.fin (if neg then -mag else mag))

/-- JS `Number(string)`: the trimmed empty string is `0`; otherwise the
decimal/`Infinity` grammar above, and `NaN` on anything else. -/
def jsStringToNumber (s : String) : JNum :=
  let t := (jsTrim s).data
  if t.isEmpty then .fin 0
  else (strToNumCore t).getD .nan

/-- `ToPrimitive` (number hint): primitives are unchanged; arrays and
plain objects convert via their default `toString`. -/
def toPrim : JVal → JVal
  | .arr xs => .str (toStrJoin xs)
  | .obj _ => .str "[object Object]"
  | v => v

/-- JS `ToNumber`. -/
def toNumber : JVal → JNum
  | .undefined => .nan
  | .null => .fin 0
  | .bool b => .fin (if b then 1 else 0)
  | .num n => n
  | .str s => jsStringToNumber s
  | .arr xs => jsStringToNumber (toStrJoin xs)
  | .obj _ => .nan

/-- Lexicographic order on character lists (JS string comparison; code
points rather than UTF-16 units, which differ only beyond the BMP). -/
def charListLt : List Char → List Char → Bool
  | [], [] => false
  | [], _ :: _ => true
  | _ :: _, [] => false
  | a :: as, b :: bs => a < b || (a = b && charListLt as bs)

/-- JS abstract relational `<` on values: both sides go through
`ToPrimitive`; two strings compare lexicographically, otherwise both
coerce to numbers (`NaN` makes the comparison false). -/
def jsLtV (a b : JVal) : Bool :=
  match toPrim a, toPrim b with
  | .str x, .str y => charListLt x.data y.data
  | pa, pb => JNum.lt (toNumber pa) (toNumber pb)

/-- JS `<=` on values (for strings, `a <= b` is the negation of
`b < a`). -/
def jsLeV (a b : JVal) : Bool :=
  match toPrim a, toPrim b with
  | .str x, .str y => !charListLt y.data x.data
  | pa, pb => JNum.le (toNumber pa) (toNumber pb)

/-- JS `>` on values. -/
def jsGtV (a b : JVal) : Bool := jsLtV b a

/-- JS `>=` on values. -/
def jsGeV (a b : JVal) : Bool := jsLeV b a

/-- JS strict equality `v === "lit"` against a string literal. -/
def strictEqStr (v : JVal) (s : String) : Bool :=
  match v with
  | .str t => t = s
  | _ => false

/-- JS binary `-` on values. -/
def vSub (a b : JVal) : JNum := JNum.sub (toNumber (toPrim a)) (toNumber (toPrim b))

/-- JS binary `*` on values. -/
def vMul (a b : JVal) : JNum := JNum.mul (toNumber (toPrim a)) (toNumber (toPrim b))

/-- JS binary `/` on values. -/
def vDiv (a b : JVal) : JNum := JNum.div (toNumber (toPrim a)) (toNumber (toPrim b))

/-- JS binary `+` on values: string concatenation when either primitive
is a string, numeric addition otherwise. -/
def vAdd (a b : JVal) : JVal :=
  match toPrim a, toPrim b with
  | .str x, pb => .str (x ++ toStr pb)
  | pa, .str y => .str (toStr pa ++ y)
  | pa, pb => .num (JNum.add (toNumber pa) (toNumber pb))

/-- `toLowerCase()` (ASCII; this program only lowercases ASCII labels). -/
def jsToLower (s : String) : String := ⟨s.data.map Char.toLower⟩

/-- `substring(0, n)`: the first `n` characters. -/
def jsSubstring0 (s : String) (n : ℕ) : String := ⟨s.data.take n⟩

/-- Left-pad with zeros to the given width. -/
def padZeros (s : String) (w : ℕ) : String :=
  ⟨List.replicate (w - s.length) '0'⟩ ++ s

/-- `Number.prototype.toFixed(d)` on a finite value: round to the nearest
multiple of `10^-d`, ties toward `+∞` (ECMA-262 picks the larger
candidate).  Exponential output for magnitudes ≥ 1e21 is not modelled. -/
def qToFixed (q : ℚ) (d : ℕ) : String :=
  let n : ℤ := Rat.floor (ratAdd (ratMul q (((10 : ℕ) ^ d : ℕ) : ℚ)) (mkRat 1 2))
  let sgn := if n < 0 then "-" else ""
  let m := n.natAbs
  if d = 0 then sgn ++ toString m
  else sgn ++ toString (m / 10 ^ d) ++ "." ++ padZeros (toString (m % 10 ^ d)) d

/-- `v.toFixed(d)`: `none` models the `TypeError` thrown on non-number
receivers (e.g. `undefined.toFixed(5)`). -/
def toFixedV : JVal → ℕ → Option String
  | .num (.fin q), d => some (qToFixed q d)
  | .num .inf, _ => some "Infinity"
  | .num .ninf, _ => some "-Infinity"
  | .num .nan, _ => some "NaN"
  | _, _ => none

/-- `toFixed` for a value already known to be a number (total). -/
def jnToFixed (n : JNum) (d : ℕ) : String := (toFixedV (.num n) d).getD ""

/-- `replace(/```json|```/g, "")`: a left-to-right scan, trying the longer
alternative first at each position. -/
def stripFencesL : List Char → List Char
  | '\x60' :: '\x60' :: '\x60' :: 'j' :: 's' :: 'o' :: 'n' :: rest => stripFencesL rest
  | '\x60' :: '\x60' :: '\x60' :: rest => stripFencesL rest
  | c :: rest => c :: stripFencesL rest
  | [] => []

/-- Fence-marker stripping on strings. -/
def stripFences (s : String) : String := ⟨stripFencesL s.data⟩

/-! ### JSON parsing (`JSON.parse`) -/

/-- JSON insignificant whitespace. -/
def jsonWs (c : Char) : Bool := c = ' ' || c = '\t' || c = '\n' || c = '\r'

/-- Skip JSON whitespace. -/
def skipWs (cs : List Char) : List Char := cs.dropWhile jsonWs

/-- Hex digit value. -/
def hexVal (c : Char) : Option ℕ :=
  if '0' ≤ c ∧ c ≤ '9' then some (c.toNat - 48)
  else if 'a' ≤ c ∧ c ≤ 'f' then some (c.toNat - 87)
  else if 'A' ≤ c ∧ c ≤ 'F' then some (c.toNat - 55)
  else none

/-- Parse the body of a JSON string literal (after the opening quote),
returning the decoded characters and the input after the closing quote.
`\uXXXX` decodes to the code point directly (lone surrogates, which
`Char` cannot hold, become the null character). -/
def parseStrBody : List Char → Option (List Char × List Char)
  | [] => none
  | '\x22' :: rest => some ([], rest)
  | '\\' :: 'u' :: a :: b :: c :: d :: rest => do
    let ha ← hexVal a
    let hb ← hexVal b
    let hc ← hexVal c
    let hd ← hexVal d
    let (s, r) ← parseStrBody rest
    some (Char.ofNat (((ha * 16 + hb) * 16 + hc) * 16 + hd) :: s, r)
  | '\\' :: e :: rest => do
    let c ← (match e with
      | '\x22' => some '\x22'
      | '\\' => some '\\'
      | '/' => some '/'
      | 'b' => some '\x08'
      | 'f' => some '\x0c'
      | 'n' => some '\n'
      | 'r' => some '\r'
      | 't' => some '\t'
      | _ => none)
    let (s, r) ← parseStrBody rest
    some (c :: s, r)
  | c :: rest =>
    if c.toNat < 32 then none
    else do
      let (s, r) ← parseStrBody rest
      some (c :: s, r)

/-- Parse a JSON numeric literal (strict JSON grammar: no leading `+`, no
leading zeros, a fraction/exponent must have digits), returning the value
and the remaining input. -/
def parseJsonNumber (cs : List Char) : Option (ℚ × List Char) :=
  let (neg, cs1) : Bool × List Char :=
    match cs with
    | '-' :: r => (true, r)
    | _ => (false, cs)
  let ids := cs1.takeWhile isDigitC
  let rest1 := cs1.dropWhile isDigitC
  if ids.isEmpty then none
  else if 1 < ids.length ∧ ids.head? = some '0' then none
  else
    let fracPart : Option (List Char × List Char) :=
      match rest1 with
      | '.' :: r =>
        let fd := r.takeWhile isDigitC
        if fd.isEmpty then none else some (fd, r.dropWhile isDigitC)
      | _ => some ([], rest1)
    match fracPart with
    | none => none
    | some (fds, rest2) =>
      let expPart : Option (ℤ × List Char) :=
        match rest2 with
        | 'e' :: r | 'E' :: r =>
          let (esgn, r3) : ℤ × List Char :=
            match r with
            | '+' :: rr => (1, rr)
            | '-' :: rr => (-1, rr)
            | _ => (1, r)
          let eds := r3.takeWhile isDigitC
          if eds.isEmpty then none
          else some (esgn * (digitsToNat eds : ℤ), r3.dropWhile isDigitC)
        | _ => some (0, rest2)
      match expPart with
      | none => none
      | some (ex, rest3) =>
        let mant : ℚ :=
          ratAdd (digitsToNat ids : ℚ) (mkRat (digitsToNat fds) (10 ^ fds.length))
        let mag : ℚ :=
          if 0 ≤ ex then ratMul mant (((10 : ℕ) ^ ex.toNat : ℕ) : ℚ)
          else ratDiv mant (((10 : ℕ) ^ (-ex).toNat : ℕ) : ℚ)
        some ((if neg then -mag else mag), rest3)

mutual
/-- Parse one JSON value (fuel-bounded recursion; the fuel passed by
`parseJson` always suffices). -/
def parseVal : ℕ → List Char → Option (JVal × List Char)
  | 0, _ => none
  | fuel + 1, cs =>
    match skipWs cs with
    | '\x22' :: rest => (parseStrBody rest).map (fun p => (.str ⟨p.1⟩, p.2))
    | 't' :: 'r' :: 'u' :: 'e' :: rest => some (.bool true, rest)
    | 'f' :: 'a' :: 'l' :: 's' :: 'e' :: rest => some (.bool false, rest)
    | 'n' :: 'u' :: 'l' :: 'l' :: rest => some (.null, rest)
    | '[' :: rest =>
      (match skipWs rest with
       | ']' :: r => some (.arr [], r)
       | _ => (parseElems fuel rest).map (fun p => (.arr p.1, p.2)))
    | '\x7b' :: rest =>
      (match skipWs rest with
       | '\x7d' :: r => some (.obj [], r)
       | _ => (parseMembers fuel rest).map (fun p => (.obj p.1, p.2)))
    | cs' => (parseJsonNumber cs').map (fun p => (.num (.fin p.1), p.2))

/-- Parse the comma-separated elements of a (nonempty) JSON array up to
and including the closing bracket. -/
def parseElems : ℕ → List Char → Option (List JVal × List Char)
  | 0, _ => none
  | fuel + 1, cs => do
    let (v, r1) ← parseVal fuel cs
    match skipWs r1 with
    | ',' :: r2 => do
      let (xs, r3) ← parseElems fuel r2
      some (v :: xs, r3)
    | ']' :: r2 => some ([v], r2)
    | _ => none

/-- Parse the members of a (nonempty) JSON object up to and including the
closing brace. -/
def parseMembers : ℕ → List Char → Option (List (String × JVal) × List Char)
  | 0, _ => none
  | fuel + 1, cs =>
    match skipWs cs with
    | '\x22' :: rest => do
      let (k, r1) ← parseStrBody rest
      match skipWs r1 with
      | ':' :: r2 => do
        let (v, r3) ← parseVal fuel r2
        match skipWs r3 with
        | ',' :: r4 => do
          let (ms, r5) ← parseMembers fuel r4
          some ((⟨k⟩, v) :: ms, r5)
        | '\x7d' :: r4 => some ([(⟨k⟩, v)], r4)
        | _ => none
      | _ => none
    | _ => none
end

/-- `JSON.parse`: `none` models the thrown `SyntaxError`. -/
def parseJson (s : String) : Option JVal :=
  match parseVal (2 * s.data.length + 8) s.data with
  | some (v, rest) => if (skipWs rest).isEmpty then some v else none
  | none => none

/-! ### JSON serialisation (`JSON.stringify`) -/

/-- Lower-case hex digit. -/
def hexDigitChar (n : ℕ) : Char :=
  if n < 10 then Char.ofNat (48 + n) else Char.ofNat (87 + n)

/-- Escape one character for a JSON string literal. -/
def escJsonChar (c : Char) : String :=
  if c = '\x22' then "\\\""
  else if c = '\\' then "\\\\"
  else if c = '\n' then "\\n"
  else if c = '\r' then "\\r"
  else if c = '\t' then "\\t"
  else if c = '\x08' then "\\b"
  else if c = '\x0c' then "\\f"
  else if c.toNat < 32 then "\\u00" ++ ⟨[hexDigitChar (c.toNat / 16), hexDigitChar (c.toNat % 16)]⟩
  else ⟨[c]⟩

/-- Escape a string for JSON. -/
def escJson (s : String) : String := String.join (s.data.map escJsonChar)

/-- Quote and escape a string for JSON. -/
def quoteJson (s : String) : String := "\"" ++ escJson s ++ "\""

mutual
/-- `JSON.stringify`: `none` models the `undefined` result (on `undefined`
input); non-finite numbers serialise as `null`. -/
def jsonStringifyV : JVal → Option String
  | .undefined => none
  | .null => some "null"
  | .bool b => some (if b then "true" else "false")
  | .num (.fin q) => some (qToString q)
  | .num _ => some "null"
  | .str s => some (quoteJson s)
  | .arr xs => some ("[" ++ jsonStringifyElems xs ++ "]")
  | .obj fs => some ("\x7b" ++ jsonStringifyFields fs ++ "\x7d")
termination_by structural v => v

/-- Array elements; `undefined` elements serialise as `null`. -/
def jsonStringifyElems : List JVal → String
  | [] => ""
  | [v] => (jsonStringifyV v).getD "null"
  | v :: rest => (jsonStringifyV v).getD "null" ++ "," ++ jsonStringifyElems rest
termination_by structural l => l

/-- Object members; `undefined`-valued properties are skipped. -/
def jsonStringifyFields : List (String × JVal) → String
  | [] => ""
  | (k, v) :: rest =>
    match jsonStringifyV v with
    | none => jsonStringifyFields rest
    | some sv =>
      let r := jsonStringifyFields rest
      let entry := quoteJson k ++ ":" ++ sv
      if r = "" then entry else entry ++ "," ++ r
termination_by structural l => l
end

/-! ### Shared data shapes -/

/-- The `indicators` object of a request. -/
structure Indicators where
  rsi : JVal
  ema9 : JVal
  ema21 : JVal
  macd : JVal
  macd_signal : JVal

/-- An OHLC candle (`openP` because `open` is a Lean keyword). -/
structure OHLC where
  openP : JVal
  high : JVal
  low : JVal
  close : JVal

/-- An HTTP response: status code and body text. -/
structure Resp where
  status : ℕ
  body : String
  deriving DecidableEq

/-- Outcome of one outbound `fetch` call, supplied to the embedded control
flow: either the promise rejected (network failure, abort/timeout) or an
HTTP response with a status and a raw body. -/
inductive FetchOutcome where
  | fail (msg : String)
  | resp (status : ℕ) (body : String)

/-- `Response.ok`: status in the 200–299 range. -/
def respOk (status : ℕ) : Bool := 200 ≤ status && status ≤ 299

/-- Optional chaining `v?.[i]`. -/
def optIndexNullish (v : JVal) (i : ℕ) : JVal :=
  match v with
  | .null => .undefined
  | .undefined => .undefined
  | w => optIndex w i

/-- `toUpperCase()` (ASCII). -/
def jsToUpper (s : String) : String := ⟨s.data.map Char.toUpper⟩

/-- Extract `data?.choices?.[0]?.message?.content` from a parsed model
response envelope. -/
def extractContent (data : JVal) : JVal :=
  optChain (optChain (optIndexNullish (optChain data "choices") 0) "message") "content"

/-! ### Variant A: `src/unnamed/part_000` (`TradingAI`, `TelegramService`,
`TradingWorker`) -/

namespace TradingAI

/-- `TRADABLE_ATR = 0.002`. -/
def TRADABLE_ATR : ℚ := mkRat 2 1000

/-- `STRONG_VOLUME_RATIO = 1.5` (renamed: file naming rules). -/
def STRONG_VOLUME_RATE : ℚ := mkRat 3 2

/-- `STRONG_ADX = 20`. -/
def STRONG_ADX : ℚ := 20

/-- `ASIA_SESSION_ADX = 28`. -/
def ASIA_SESSION_ADX : ℚ := 28

/-- `ASIA_SESSION_VOLUME = 2.0`. -/
def ASIA_SESSION_VOLUME : ℚ := 2

/-- `SUPPORT_RESISTANCE_DISTANCE_ATR = 1.5`. -/
def SUPPORT_RESISTANCE_DISTANCE_ATR : ℚ := mkRat 3 2

/-- `MACD_HISTOGRAM_MIN_CHANGE = 0.0001`. -/
def MACD_HISTOGRAM_MIN_CHANGE : ℚ := mkRat 1 10000

/-- The fixed whitelist `VALID_PATTERNS`. -/
def VALID_PATTERNS : List String :=
  ["bullish engulfing", "bearish engulfing",
   "hammer", "shooting star",
   "double top", "double bottom"]

/-- A request body for variant A.  The free-text fields (`symbol`, `tf`,
`pattern`, `session`) are strings (the handler's required-field check
ensures they are present); the numeric slots are arbitrary JS values.
`macd_hist_prev` is `undefined` when the request omits it. -/
structure DataA where
  symbol : String
  tf : String
  ohlc : OHLC
  indicators : Indicators
  adx : JVal
  atr : JVal
  volume_ratio : JVal
  pattern : String
  session : String
  support : JVal
  resistance : JVal
  macd_hist_prev : JVal

/-- The object returned by `calculateDerivedValues`. -/
structure Derived where
  price : JVal
  hourUTC : ℕ
  sessionType : String
  macdHistCurrent : JNum
  isMacdRising : Bool
  supportDistanceATR : JNum
  resistanceDistanceATR : JNum
  isNearSupport : Bool
  isNearResistance : Bool
  isValidPattern : Bool
  trend : String
  momentum : String
  macdTrend : String

/-- `TradingAI.getSessionType`. -/
def getSessionType (hourUTC : ℕ) : String :=
  if 2 ≤ hourUTC ∧ hourUTC < 5 then "ASIA"
  else if (8 ≤ hourUTC ∧ hourUTC < 12) ∨ (14 ≤ hourUTC ∧ hourUTC < 17) then "OVERLAP"
  else "REGULAR"

/-- `TradingAI.calculateDerivedValues` (the `new Date().getUTCHours()`
reading is the explicit `hourUTC` parameter; `macd_hist_prev` is the
destructured-with-default value `callAI` passes). -/
def calculateDerivedValues (d : DataA) (macd_hist_prev : JVal) (hourUTC : ℕ) : Derived :=
  let price := d.ohlc.close
  let histCurrent := vSub d.indicators.macd d.indicators.macd_signal
  { price := price
    hourUTC := hourUTC
    sessionType := getSessionType hourUTC
    macdHistCurrent := histCurrent
    isMacdRising :=
      jsGtV (.num histCurrent) (vAdd macd_hist_prev (.num (.fin MACD_HISTOGRAM_MIN_CHANGE)))
    supportDistanceATR := JNum.div (vSub price d.support) (toNumber (toPrim d.atr))
    resistanceDistanceATR := JNum.div (vSub d.resistance price) (toNumber (toPrim d.atr))
    isNearSupport :=
      JNum.le (JNum.div (vSub price d.support) (toNumber (toPrim d.atr)))
        (.fin SUPPORT_RESISTANCE_DISTANCE_ATR)
    isNearResistance :=
      JNum.le (JNum.div (vSub d.resistance price) (toNumber (toPrim d.atr)))
        (.fin SUPPORT_RESISTANCE_DISTANCE_ATR)
    isValidPattern := VALID_PATTERNS.contains (jsToLower d.pattern)
    trend :=
      if jsGtV d.indicators.ema9 d.indicators.ema21 then "bullish"
      else if jsLtV d.indicators.ema9 d.indicators.ema21 then "bearish"
      else "neutral"
    momentum :=
      if jsGtV d.indicators.rsi (.num (.fin 70)) then "overbought"
      else if jsLtV d.indicators.rsi (.num (.fin 30)) then "oversold"
      else "neutral"
    macdTrend :=
      if jsGtV d.indicators.macd d.indicators.macd_signal then "bullish" else "bearish" }

/-- The characters `sanitizeForPrompt` strips: the regex class
`[{}<>\[\]'"`]`. -/
def badPromptChars : List Char :=
  ['\x7b', '\x7d', '<', '>', '[', ']', '\x27', '\x22', '\x60']

/-- `TradingAI.sanitizeForPrompt` (callers pass strings, so the
`String(text)` coercion is the identity here). -/
def sanitizeForPrompt (text : String) : String :=
  ⟨text.data.filter (fun c => !(badPromptChars.contains c))⟩

/-- Success condition of one `validateIndicator` check:
`typeof value === 'number' && !isNaN(value) && value >= min && value <= max`
(the negation of the source's throw condition). -/
def indicatorOkB (value : JVal) (lo hi : JNum) : Bool :=
  match value with
  | .num n => !(n.isNaN || JNum.lt n lo || JNum.gt n hi)
  | _ => false

/-- The inner `validateIndicator` helper; the error message is the
source's template with its interpolations resolved at the call site. -/
def validateIndicator (value : JVal) (lo hi : JNum) (msg : String) : Except String Unit :=
  if indicatorOkB value lo hi then .ok () else .error msg

/-- `TradingAI.validateInputs`. -/
def validateInputs (d : DataA) : Except String Unit :=
  match validateIndicator d.indicators.rsi (.fin 0) (.fin 100)
      "Invalid RSI: must be between 0-100" with
  | .error e => .error e
  | .ok _ =>
  match validateIndicator d.adx (.fin 0) (.fin 100)
      "Invalid ADX: must be between 0-100" with
  | .error e => .error e
  | .ok _ =>
  match validateIndicator d.atr (.fin 0) .inf
      "Invalid ATR: must be between 0-Infinity" with
  | .error e => .error e
  | .ok _ =>
    if jsLtV d.ohlc.high d.ohlc.low then
      .error "Invalid OHLC: High must be >= Low"
    else if jsLeV d.ohlc.openP (.num (.fin 0)) || jsLeV d.ohlc.high (.num (.fin 0)) ||
        jsLeV d.ohlc.low (.num (.fin 0)) || jsLeV d.ohlc.close (.num (.fin 0)) then
      .error "Invalid OHLC: Prices must be positive"
    else .ok ()

/-- The signal object variant A produces (no `confidence` field). -/
structure SignalA where
  signal : String
  explanation : String
  deriving DecidableEq

/-- The argument of `generateFallbackSignal`; destructuring an empty
object `{}` yields `undefined` for every field. -/
structure FallbackIndicators where
  ema9 : JVal := .undefined
  ema21 : JVal := .undefined
  rsi : JVal := .undefined

/-- `TradingAI.generateFallbackSignal`. -/
def generateFallbackSignal (ind : FallbackIndicators) : SignalA :=
  if jsGtV ind.ema9 ind.ema21 && jsLtV ind.rsi (.num (.fin 70)) then
    ⟨"buy", "Fallback: EMA bullish & RSI not overbought"⟩
  else if jsLtV ind.ema9 ind.ema21 && jsGtV ind.rsi (.num (.fin 30)) then
    ⟨"sell", "Fallback: EMA bearish & RSI not oversold"⟩
  else
    ⟨"hold", "Fallback: No clear trend"⟩

/-- `JSON.stringify` of a variant-A signal object. -/
def jsonStringifySignalA (sig : SignalA) : String :=
  "\x7b\"signal\":" ++ quoteJson sig.signal ++
    ",\"explanation\":" ++ quoteJson sig.explanation ++ "\x7d"

/-- The `try` block of `TradingAI.tryParseAI` on the cleaned text:
`none` models a thrown error (parse failure, bad `signal`, non-string
truthy `explanation`). -/
def tryParseAICore (cleaned : String) : Option SignalA :=
  match parseJson cleaned with
  | none => none
  | some parsed =>
    match getProp parsed "signal" with
    | none => none
    | some sigV =>
      match sigV with
      | .str s =>
        if ["buy", "sell", "hold"].contains (jsToLower s) then
          match getProp parsed "explanation" with
          | none => none
          | some explV =>
            if truthy explV && !isStringV explV then none
            else
              some { signal := jsToLower s
                     explanation :=
                       if truthy explV then jsSubstring0 (toStr explV) 500
                       else "No explanation" }
        else none
      | _ => none

/-- `TradingAI.tryParseAI`. -/
def tryParseAI (aiRespText : String) : SignalA :=
  let cleaned := jsTrim (stripFences aiRespText)
  match tryParseAICore cleaned with
  | some sig => sig
  | none => generateFallbackSignal {}

/-- The per-number `toFixed` renderings `buildAIPrompt` interpolates, in
source order; `none` models the `TypeError` a non-number field raises. -/
structure PromptNums where
  priceS : String
  supportS : String
  resistanceS : String
  ema9S : String
  ema21S : String
  rsiS : String
  macdS : String
  macdSignalS : String
  mhpS : String
  adxS : String
  atrS : String
  volRatioS : String

/-- Render every `toFixed` interpolation of `buildAIPrompt`. -/
def promptNums (d : DataA) (der : Derived) : Option PromptNums := do
  let priceS ← toFixedV der.price 5
  let supportS ← toFixedV d.support 5
  let resistanceS ← toFixedV d.resistance 5
  let ema9S ← toFixedV d.indicators.ema9 5
  let ema21S ← toFixedV d.indicators.ema21 5
  let rsiS ← toFixedV d.indicators.rsi 2
  let macdS ← toFixedV d.indicators.macd 5
  let macdSignalS ← toFixedV d.indicators.macd_signal 5
  let mhpS ← toFixedV d.macd_hist_prev 5
  let adxS ← toFixedV d.adx 2
  let atrS ← toFixedV d.atr 5
  let volRatioS ← toFixedV d.volume_ratio 2
  some ⟨priceS, supportS, resistanceS, ema9S, ema21S, rsiS, macdS, macdSignalS,
        mhpS, adxS, atrS, volRatioS⟩

/-- The fixed text of the prompt template up to the `${...symbol...}`
interpolation (constant interpolations such as `${STRONG_ADX}` are
resolved to the digits JS prints). -/
def promptHead : String :=
  "\nYou are an expert algorithmic trader. Respond ONLY in valid JSON:\n\x7b\"signal\": \"buy|sell|hold\", \"explanation\": \"short reason with data\"\x7d\n\n🔥 STRICT TRADING RULES (VIOLATION = HOLD):\n1. Trend Strength:\n   - ADX < 20 → HOLD (weak trend)\n   - Asia Session? ADX must > 28 & volume_ratio > 2\n\n2. Momentum Filter:\n   - RSI > 70 + Bullish → HOLD (overbought)\n   - RSI < 30 + Bearish → HOLD (oversold)\n\n3. Volume Confirmation:\n   - volume_ratio < 1.5 → HOLD (weak)\n   - Asia Session: volume_ratio must > 2\n\n4. MACD Requirements:\n   - Buy: Histogram RISING (current > previous by 0.0001)\n   - Sell: Histogram FALLING (current < previous by 0.0001)\n\n5. Price Position:\n   - Near Support (≤1.5x ATR) + Valid Bullish Pattern → Strong Buy\n   - Near Resistance (≤1.5x ATR) + Valid Bearish Pattern → Strong Sell\n\n6. Session Constraints:\n   - ASIA (2-5 UTC): Extra strict rules\n   - OVERLAP (8-12/14-17 UTC): Higher ATR allowed\n   - REGULAR: Standard rules\n\n🚨 FINAL DECISION:\n- Jika SEMUA kondisi terpenuhi → Berikan sinyal\n- Jika ADA 1 saja yang gagal → HOLD\n- JANGAN menebak!\n\nANALYSIS:\n- Symbol: "

/-- The prompt text after the sanitized symbol.  Note `${data.pattern}`
is interpolated here verbatim, without `sanitizeForPrompt`. -/
def promptTail (d : DataA) (der : Derived) (t : PromptNums) : String :=
  ", TF: " ++ d.tf ++ ", Session: " ++ der.sessionType ++
  "\n- Price: " ++ t.priceS ++ " (Support: " ++ t.supportS ++
    ", Resistance: " ++ t.resistanceS ++ ")" ++
  "\n- Trend: EMA9(" ++ t.ema9S ++ ") " ++ der.trend ++
    " vs EMA21(" ++ t.ema21S ++ ")" ++
  "\n- Momentum: RSI(" ++ t.rsiS ++ ") = " ++ der.momentum ++
  "\n- MACD: " ++ t.macdS ++ " vs Signal(" ++ t.macdSignalS ++ ") → " ++ der.macdTrend ++
  "\n  Histogram: Current=" ++ jnToFixed der.macdHistCurrent 5 ++
    ", Previous=" ++ t.mhpS ++ " → " ++
    (if der.isMacdRising then "RISING" else "FALLING") ++
  "\n- ADX: " ++ t.adxS ++ " (≥20 = strong)" ++
  "\n- ATR: " ++ t.atrS ++ " (≥0.002 = tradable)" ++
  "\n- Volume Ratio: " ++ t.volRatioS ++ " (≥1.5 = strong)" ++
  "\n- Pattern: " ++ d.pattern ++ " " ++
    (if der.isValidPattern then "(VALID)" else "(INVALID → HOLD)") ++
  "\n- Position:\n  - Support: " ++ (if der.isNearSupport then "NEAR" else "FAR") ++
    " (" ++ jnToFixed der.supportDistanceATR 1 ++ "x ATR)" ++
  "\n  - Resistance: " ++ (if der.isNearResistance then "NEAR" else "FAR") ++
    " (" ++ jnToFixed der.resistanceDistanceATR 1 ++ "x ATR)" ++
  "\n\nRespond in strict JSON only. No extra text. Example:\n\x7b\"signal\":\"buy\",\"explanation\":\"bullish trend (ADX 26), MACD rising, volume strong, price at support with bullish engulfing\"\x7d\n    "

/-- `TradingAI.buildAIPrompt`: `none` models the `TypeError` a non-number
field raises inside the template; only `data.symbol` goes through
`sanitizeForPrompt`. -/
def buildAIPrompt (d : DataA) (der : Derived) : Option String :=
  match promptNums d der with
  | none => none
  | some t => some (promptHead ++ (sanitizeForPrompt d.symbol ++ promptTail d der t))

/-- `TradingAI.fetchWithTimeout` for the analysis call: timeout/abort and
network failure arrive as `FetchOutcome.fail`; then non-ok statuses throw,
the body is parsed as JSON, and
`(data?.choices?.[0]?.message?.content || "").trim()` is returned. -/
def fetchWithTimeout (outcome : FetchOutcome) : Except String String :=
  match outcome with
  | .fail m => .error m
  | .resp status body =>
    if !respOk status then .error ("HTTP " ++ toString status ++ ": " ++ body)
    else
      match parseJson body with
      | none => .error "SyntaxError: invalid JSON from model endpoint"
      | some data =>
        match extractContent data with
        | .str s => .ok (jsTrim s)
        | v => if truthy v then .error "TypeError: trim is not a function" else .ok ""

/-- The body of `TradingAI.callAI`'s `try` block (validation, derived
values, prompt construction, model call). -/
def callAITry (d : DataA) (hourUTC : ℕ) (outcome : FetchOutcome) : Except String String :=
  match validateInputs d with
  | .error e => .error e
  | .ok _ =>
    let mhp : JVal :=
      match d.macd_hist_prev with
      | .undefined => .num (.fin 0)
      | v => v
    let derived := calculateDerivedValues d mhp hourUTC
    match buildAIPrompt d derived with
    | none => .error "TypeError: toFixed is not a function"
    | some _userContent => fetchWithTimeout outcome

/-- `TradingAI.callAI`: every failure inside the `try` block (validation
included) is absorbed into the stringified fallback signal computed from
the request's own indicators (`data.indicators || {}` — `indicators` is
an object whenever the handler reaches this call). -/
def callAI (d : DataA) (hourUTC : ℕ) (outcome : FetchOutcome) : String :=
  match callAITry d hourUTC outcome with
  | .ok s => s
  | .error _ =>
    jsonStringifySignalA (generateFallbackSignal
      ⟨d.indicators.ema9, d.indicators.ema21, d.indicators.rsi⟩)

end TradingAI

namespace TelegramService

/-- `TelegramService.fetchWithTimeout`. -/
def fetchWithTimeout (outcome : FetchOutcome) : Except String Unit :=
  match outcome with
  | .fail m => .error m
  | .resp status body =>
    if !respOk status then .error ("HTTP " ++ toString status ++ ": " ++ body) else .ok ()

/-- `TelegramService.sendMessage`: every failure is caught and only
logged. -/
def sendMessage (outcome : FetchOutcome) : Unit :=
  match fetchWithTimeout outcome with
  | .ok _ => ()
  | .error _ => ()

end TelegramService

namespace TradingWorker

open TradingAI

/-- The worker's only mutable state: the rate limiter's last-accepted
timestamp (`lastRequestTime`, milliseconds). -/
structure WorkerSt where
  lastRequestTime : ℤ
  deriving DecidableEq

/-- An inbound request for variant A: method, `x-api-key` header (if
present), and the decoded JSON body (if the body was valid JSON of the
right shape). -/
structure ReqA where
  method : String
  apiKey : Option String
  body : Option DataA

/-- `TradingWorker.authenticateRequest`:
`headerKey && expectedKey && headerKey === expectedKey`. -/
def authenticateRequest (req : ReqA) (preSharedToken : Option String) : Bool :=
  match req.apiKey, preSharedToken with
  | some h, some t => h ≠ "" && t ≠ "" && h = t
  | _, _ => false

/-- First required field that fails the handler's truthiness check
(`!bodyJson[field]`), in the source's order.  `ohlc` and `indicators` are
objects in `DataA` and hence always truthy. -/
def firstMissingField (d : DataA) : Option String :=
  if d.symbol = "" then some "symbol"
  else if d.tf = "" then some "tf"
  else if !truthy d.adx then some "adx"
  else if !truthy d.atr then some "atr"
  else if !truthy d.volume_ratio then some "volume_ratio"
  else if d.pattern = "" then some "pattern"
  else if d.session = "" then some "session"
  else if !truthy d.support then some "support"
  else if !truthy d.resistance then some "resistance"
  else none

/-- `TradingWorker.sendTelegramNotification`'s message: `none` models the
`TypeError` from `data.ohlc.close.toFixed(5)` on a non-number close.
`timeStr` stands for `new Date().toLocaleTimeString()`. -/
def notificationMessage (d : DataA) (parsed : SignalA) (timeStr : String) : Option String :=
  (toFixedV d.ohlc.close 5).map (fun closeS =>
    "📡 <b>AI Signal: " ++ jsToUpper parsed.signal ++ "</b>\n📈 <b>" ++
      sanitizeForPrompt d.symbol ++ " | " ++ d.tf ++ "</b>\n📊 Close: " ++ closeS ++
      "\n🎯 <i>" ++ parsed.explanation ++ "</i>\n⏱️ " ++ timeStr)

/-- `TradingWorker.handle`: rate limit, then method check, then
authentication, then body parsing/required fields, then the signal
pipeline.  `now` is the `Date.now()` reading, `hourUTC` the UTC hour,
`aiFetch`/`tgFetch` the outcomes of the two outbound calls. -/
def handle (st : WorkerSt) (now : ℤ) (preSharedToken : Option String) (req : ReqA)
    (hourUTC : ℕ) (timeStr : String) (aiFetch tgFetch : FetchOutcome) : WorkerSt × Resp :=
  if now - st.lastRequestTime < 12000 then
    (st, ⟨429, "\x7b\"error\":\"Too many requests\"\x7d"⟩)
  else
    let st' : WorkerSt := ⟨now⟩
    if req.method ≠ "POST" then (st', ⟨405, "Method Not Allowed"⟩)
    else if !authenticateRequest req preSharedToken then
      (st', ⟨401, "\x7b\"error\":\"Unauthorized\"\x7d"⟩)
    else
      match req.body with
      | none => (st', ⟨400, "\x7b\"error\":\"Invalid JSON\"\x7d"⟩)
      | some d =>
        match firstMissingField d with
        | some f => (st', ⟨400, "\x7b\"error\":\"Missing " ++ f ++ "\"\x7d"⟩)
        | none =>
          let aiText := callAI d hourUTC aiFetch
          let parsed := tryParseAI aiText
          match notificationMessage d parsed timeStr with
          | none =>
            (st', ⟨500, "\x7b\"error\":\"Processing failed\",\"message\":\"toFixed is not a function\"\x7d"⟩)
          | some _msg =>
            let _ := TelegramService.sendMessage tgFetch
            (st', ⟨200, jsonStringifySignalA parsed⟩)

end TradingWorker

/-! ### Variant B: `src/index.js` -/

namespace IndexJs

/-- The signal object variant B produces.  `parseAIResponse` lowercases
and validates `signal`, but `confidence`/`explanation` pass through the
model's values unchanged (hence `JVal`). -/
structure SignalB where
  signal : String
  confidence : JVal
  explanation : JVal

/-- The `higherTF` object of a request. -/
structure HigherTF where
  h1Trend : JVal
  d1Trend : JVal

/-- A request body for variant B.  `keyLevels` and `marketContext` are
only interpolated into the prompt (not modelled); `ohlc` is `none` when
the body omits it. -/
structure BodyB where
  symbol : JVal
  timeframe : JVal
  ohlc : Option OHLC
  prevCandles : JVal
  indicators : Indicators
  volume : JVal
  avgVolume : JVal
  keyLevels : JVal
  higherTF : HigherTF
  marketContext : JVal

/-- `validateTradingData` (the `prevCandles` parameter is unused in the
source as well). -/
def validateTradingData (ohlc : Option OHLC) (_prevCandles : JVal)
    (indicators : Indicators) (volume avgVolume : JVal) : Except String Unit :=
  match ohlc with
  | none => .error "Invalid OHLC data"
  | some o =>
    if jsLtV o.high o.low then
      .error "High price cannot be lower than low price"
    else if jsLtV o.openP (.num (.fin 0)) || jsLtV o.close (.num (.fin 0)) then
      .error "Prices cannot be negative"
    else if !isNumberV indicators.rsi || jsLtV indicators.rsi (.num (.fin 0)) ||
        jsGtV indicators.rsi (.num (.fin 100)) then
      .error "Invalid RSI value"
    else if !isNumberV indicators.macd || !isNumberV indicators.macd_signal then
      .error "Invalid MACD values"
    else if !isNumberV volume || jsLtV volume (.num (.fin 0)) then
      .error "Invalid volume"
    else if !isNumberV avgVolume || jsLeV avgVolume (.num (.fin 0)) then
      .error "Invalid average volume"
    else .ok ()

/-- `filterSignal`: only a "buy" against a `"strong bearish"` D1 trend is
rejected (there is no symmetric check for "sell"), plus the
extreme-RSI-without-volume rule. -/
def filterSignal (parsedSignal : SignalB) (indicators : Indicators)
    (volume avgVolume : JVal) (higherTF : HigherTF) : SignalB :=
  if parsedSignal.signal = "buy" && strictEqStr higherTF.d1Trend "strong bearish" then
    { parsedSignal with
      signal := "hold"
      confidence := .str "low"
      explanation :=
        .str (toStr parsedSignal.explanation ++ " (Rejected: Against D1 strong trend)") }
  else if (parsedSignal.signal = "buy" && jsGtV indicators.rsi (.num (.fin 70)) &&
        jsLtV volume (.num (vMul avgVolume (.num (.fin (mkRat 6 5)))))) ||
      (parsedSignal.signal = "sell" && jsLtV indicators.rsi (.num (.fin 30)) &&
        jsLtV volume (.num (vMul avgVolume (.num (.fin (mkRat 6 5)))))) then
    { parsedSignal with
      signal := "hold"
      confidence := .str "low"
      explanation :=
        .str (toStr parsedSignal.explanation ++
          " (Rejected: Extreme RSI without volume confirmation)") }
  else parsedSignal

/-- The `try` block of `parseAIResponse` after `JSON.parse` succeeded:
`none` models a thrown error (falsy or non-enum `signal`, or the
`TypeError` from `.toLowerCase()` on a truthy non-string). -/
def parseAIResponseCore (parsed : JVal) : Option SignalB :=
  match getProp parsed "signal" with
  | none => none
  | some sigV =>
    if !truthy sigV then none
    else
      match sigV with
      | .str s =>
        if ["buy", "sell", "hold"].contains (jsToLower s) then
          match getProp parsed "confidence", getProp parsed "explanation" with
          | some confV, some explV =>
            some { signal := jsToLower s
                   confidence := if truthy confV then confV else .str "medium"
                   explanation := if truthy explV then explV else .str "No explanation provided" }
          | _, _ => none
        else none
      | _ => none

/-- `parseAIResponse`: strip fence markers, trim, parse, validate the
shape; any failure yields the fixed hold signal.  Note: no truncation of
`explanation` in this variant. -/
def parseAIResponse (aiText : String) : SignalB :=
  match (parseJson (jsTrim (stripFences aiText))).bind parseAIResponseCore with
  | some sig => sig
  | none => ⟨"hold", .str "low", .str "Error parsing AI response"⟩

/-- `callAI` of `index.js`: validation first (its error propagates to the
caller), then the model call; any gateway failure is rethrown.  The
prompt `userContent` (lines 18–36) has no observable effect here and is
not modelled.  The empty-content check is
`if (!aiResponse) throw new Error("Empty AI response")`. -/
def callAI (b : BodyB) (outcome : FetchOutcome) : Except String String :=
  match validateTradingData b.ohlc b.prevCandles b.indicators b.volume b.avgVolume with
  | .error e => .error e
  | .ok _ =>
    match outcome with
    | .fail m => .error m
    | .resp status body =>
      if !respOk status then .error ("AI API Error: " ++ toString status ++ " " ++ body)
      else
        match parseJson body with
        | none => .error "SyntaxError: invalid JSON from model endpoint"
        | some data =>
          let content := extractContent data
          if !truthy content then .error "Empty AI response"
          else
            match content with
            | .str s => .ok s
            | v => .ok (toStr v)

/-- `sendTelegramAlert`: a rejected `fetch` propagates to the caller's
catch-all (500); a non-ok response is only logged. -/
def sendTelegramAlert (outcome : FetchOutcome) : Except String Unit :=
  match outcome with
  | .fail m => .error m
  | .resp _ _ => .ok ()

/-- One entry of `analysisCache`. -/
structure CacheEntry where
  data : SignalB
  timestamp : ℤ

/-- The cache map, as an association list with at most one binding per
key. -/
def Cache := List (String × CacheEntry)

/-- The OHLC object as a JS value (for `JSON.stringify`). -/
def ohlcToJVal (o : OHLC) : JVal :=
  .obj [("open", o.openP), ("high", o.high), ("low", o.low), ("close", o.close)]

/-- The cache key
`` `${symbol}-${timeframe}-${JSON.stringify(ohlc)}` ``. -/
def cacheKey (b : BodyB) : String :=
  toStr b.symbol ++ "-" ++ toStr b.timeframe ++ "-" ++
    (match b.ohlc with
     | some o => (jsonStringifyV (ohlcToJVal o)).getD "undefined"
     | none => "undefined")

/-- `analysisCache.get`. -/
def cacheGet (cache : Cache) (k : String) : Option CacheEntry :=
  (List.find? (fun e => e.1 = k) cache).map (fun e => e.2)

/-- `analysisCache.set` (replaces any existing binding). -/
def cacheSet (cache : Cache) (k : String) (v : CacheEntry) : Cache :=
  (k, v) :: List.filter (fun e => e.1 ≠ k) cache

/-- `JSON.stringify` of a variant-B signal object. -/
def jsonStringifySignalB (sig : SignalB) : String :=
  "\x7b\"signal\":" ++ quoteJson sig.signal ++
    (match jsonStringifyV sig.confidence with
     | some s => ",\"confidence\":" ++ s
     | none => "") ++
    (match jsonStringifyV sig.explanation with
     | some s => ",\"explanation\":" ++ s
     | none => "") ++ "\x7d"

/-- The body of a 500 response:
`{"error":"Processing failed","details":...}`. -/
def err500 (details : String) : String :=
  "\x7b\"error\":\"Processing failed\",\"details\":" ++ quoteJson details ++ "\x7d"

/-- An inbound request for variant B. -/
structure ReqB where
  method : String
  apiKey : Option String
  body : Option BodyB

/-- The analysis path of `handleRequest` after the cache miss: model
call, parse, filter, cache store, Telegram alert, 200 response.  Any
thrown error lands in the catch-all 500. -/
def processAnalysis (cache : Cache) (now : ℤ) (b : BodyB) (key : String)
    (aiFetch tgFetch : FetchOutcome) : Resp × Cache :=
  match callAI b aiFetch with
  | .error e => (⟨500, err500 e⟩, cache)
  | .ok aiText =>
    let parsedSignal :=
      filterSignal (parseAIResponse aiText) b.indicators b.volume b.avgVolume b.higherTF
    let cache' := cacheSet cache key ⟨parsedSignal, now⟩
    match sendTelegramAlert tgFetch with
    | .error e => (⟨500, err500 e⟩, cache')
    | .ok _ => (⟨200, jsonStringifySignalB parsedSignal⟩, cache')

/-- `handleRequest` of `index.js`: method check, auth check, then a
`try`/`catch` around body parsing, required fields, cache lookup and the
analysis path.  There is no rate limiter and no fallback generator in
this variant: gateway and notifier failures surface as 500. -/
def handleRequest (cache : Cache) (now : ℤ) (preSharedToken : Option String)
    (req : ReqB) (aiFetch tgFetch : FetchOutcome) : Resp × Cache :=
  if req.method ≠ "POST" then (⟨405, "\x7b\"error\":\"Method not allowed\"\x7d"⟩, cache)
  else if !(match req.apiKey, preSharedToken with
            | some h, some t => h = t
            | _, _ => false) then
    (⟨401, "\x7b\"error\":\"Unauthorized\"\x7d"⟩, cache)
  else
    match req.body with
    | none => (⟨500, err500 "Invalid JSON"⟩, cache)
    | some b =>
      if !truthy b.symbol || !truthy b.timeframe then
        (⟨500, err500 "Missing required fields"⟩, cache)
      else
        let key := cacheKey b
        match cacheGet cache key with
        | some cached =>
          if now - cached.timestamp < 30000 then
            (⟨200, jsonStringifySignalB cached.data⟩, cache)
          else processAnalysis cache now b key aiFetch tgFetch
        | none => processAnalysis cache now b key aiFetch tgFetch

end IndexJs

/-! ### Auxiliary notions for theorem statements -/

/-- `needle` is a prefix of `hay` (character lists). -/
def beginsWith : List Char → List Char → Bool
  | [], _ => true
  | _ :: _, [] => false
  | a :: as, b :: bs => a = b && beginsWith as bs

/-- `needle` occurs contiguously inside `hay`. -/
def hasSub (needle : List Char) : List Char → Bool
  | [] => needle.isEmpty
  | c :: rest => beginsWith needle (c :: rest) || hasSub needle rest

/-! ### Concrete fixtures used by witnesses and counterexamples -/

/-- A well-formed variant-A request body: all checks pass. -/
def dGood : TradingAI.DataA :=
  { symbol := "EURUSD", tf := "M15"
    ohlc := ⟨.num (.fin 1), .num (.fin 2), .num (.fin 1), .num (.fin (mkRat 3 2))⟩
    indicators := ⟨.num (.fin 50), .num (.fin 2), .num (.fin 1), .num (.fin 1), .num (.fin 0)⟩
    adx := .num (.fin 25), atr := .num (.fin 1), volume_ratio := .num (.fin 2)
    pattern := "hammer", session := "London"
    support := .num (.fin 1), resistance := .num (.fin 2)
    macd_hist_prev := .num (.fin 0) }

/-- `dGood` with a non-numeric `macd` (a string). -/
def dMacdStr : TradingAI.DataA :=
  { dGood with indicators := { dGood.indicators with macd := .str "not a number" } }

/-- `dGood` with a prompt-breaking `pattern` label. -/
def dEvil : TradingAI.DataA := { dGood with pattern := "\x7bevil\x7d" }

/-- `dGood` with `atr = 0` (accepted by the validator). -/
def dAtr0 : TradingAI.DataA := { dGood with atr := .num (.fin 0) }

/-- The derived metrics of `dGood` at UTC hour 10. -/
def derGood : TradingAI.Derived := TradingAI.calculateDerivedValues dGood (.num (.fin 0)) 10

/-- The derived metrics of `dEvil` at UTC hour 10. -/
def derEvil : TradingAI.Derived := TradingAI.calculateDerivedValues dEvil (.num (.fin 0)) 10

/-- A well-formed variant-B request body. -/
def bodyGood : IndexJs.BodyB :=
  { symbol := .str "EURUSD", timeframe := .str "M15"
    ohlc := some ⟨.num (.fin 1), .num (.fin 2), .num (.fin 1), .num (.fin (mkRat 3 2))⟩
    prevCandles := .null
    indicators := ⟨.num (.fin 50), .num (.fin 2), .num (.fin 1), .num (.fin 1), .num (.fin 0)⟩
    volume := .num (.fin 100), avgVolume := .num (.fin 100)
    keyLevels := .null
    higherTF := ⟨.str "bullish", .str "bullish"⟩
    marketContext := .null }

/-! ## Helper lemmas -/

/-- `jsGtV` on two finite numbers is the rational comparison. -/
theorem jsGtV_fin (a b : ℚ) :
    jsGtV (.num (.fin a)) (.num (.fin b)) = decide (b < a) := rfl

/-- `jsLtV` on two finite numbers is the rational comparison. -/
theorem jsLtV_fin (a b : ℚ) :
    jsLtV (.num (.fin a)) (.num (.fin b)) = decide (a < b) := rfl

/-- Parsing the stringified fallback signal returns it unchanged (the
fallback's three possible outputs all round-trip through
`JSON.stringify` and `tryParseAI`). -/
theorem tryParseAI_stringify_fallback (f : TradingAI.FallbackIndicators) :
    TradingAI.tryParseAI (TradingAI.jsonStringifySignalA (TradingAI.generateFallbackSignal f)) =
      TradingAI.generateFallbackSignal f := by
  unfold TradingAI.generateFallbackSignal
  split_ifs <;> decide

/-- `TradingAI.callAI` on a failed fetch returns the stringified fallback
signal built from the request's own indicators, whatever else the request
contains. -/
theorem callAI_fail (d : TradingAI.DataA) (hour : ℕ) (m : String) :
    TradingAI.callAI d hour (.fail m) =
      TradingAI.jsonStringifySignalA (TradingAI.generateFallbackSignal
        ⟨d.indicators.ema9, d.indicators.ema21, d.indicators.rsi⟩) := by
  unfold TradingAI.callAI TradingAI.callAITry
  cases hv : TradingAI.validateInputs d <;>
    cases hb : TradingAI.buildAIPrompt d
      (TradingAI.calculateDerivedValues d
        (match d.macd_hist_prev with
         | .undefined => .num (.fin 0)
         | v => v) hour) <;>
    simp [hv, hb, TradingAI.fetchWithTimeout]

/-! ## Claim theorems -/

/-- C4 counterexample: the Signal Filter does not handle the symmetric
case — a proposed "sell" against a `"strong bullish"` D1 trend passes
through unchanged instead of being overridden to hold. -/
theorem C4_counterexample_no_sell_override :
    IndexJs.filterSignal ⟨"sell", .str "high", .str "E"⟩
        ⟨.num (.fin 50), .num (.fin 2), .num (.fin 1), .num (.fin 1), .num (.fin 0)⟩
        (.num (.fin 1)) (.num (.fin 1)) ⟨.str "bullish", .str "strong bullish"⟩ =
      ⟨"sell", .str "high", .str "E"⟩ := rfl

/-- C4 (amended): the filter overrides to hold with confidence "low" and
an appended rejection reason when the proposed signal is "buy" and the D1
trend is `"strong bearish"`; no symmetric check for "sell" against a
strongly bullish trend exists. -/
theorem C4_amended_buy_override (p : IndexJs.SignalB) (ind : Indicators)
    (volume avgVolume : JVal) (htf : IndexJs.HigherTF)
    (hsig : p.signal = "buy") (htrend : htf.d1Trend = .str "strong bearish") :
    IndexJs.filterSignal p ind volume avgVolume htf =
      { p with signal := "hold", confidence := .str "low",
               explanation :=
                 .str (toStr p.explanation ++ " (Rejected: Against D1 strong trend)") } := by
  simp [IndexJs.filterSignal, hsig, htrend, strictEqStr]

/-- Witness for C4 (amended) at a concrete buy signal. -/
theorem C4_amended_buy_override_witness :
    IndexJs.filterSignal ⟨"buy", .str "high", .str "E"⟩
        ⟨.num (.fin 50), .num (.fin 2), .num (.fin 1), .num (.fin 1), .num (.fin 0)⟩
        (.num (.fin 1)) (.num (.fin 1)) ⟨.str "x", .str "strong bearish"⟩ =
      ⟨"hold", .str "low", .str "E (Rejected: Against D1 strong trend)"⟩ :=
  C4_amended_buy_override ⟨"buy", .str "high", .str "E"⟩
    ⟨.num (.fin 50), .num (.fin 2), .num (.fin 1), .num (.fin 1), .num (.fin 0)⟩
    (.num (.fin 1)) (.num (.fin 1)) ⟨.str "x", .str "strong bearish"⟩ rfl rfl

/-- C5 counterexample: variant B's interpreter does not truncate the
explanation — a 501-character explanation survives in full. -/
theorem C5_counterexample_no_truncation_in_B :
    (IndexJs.parseAIResponse
        ("\x7b\"signal\":\"buy\",\"explanation\":\"" ++ (⟨List.replicate 501 'a'⟩ : String) ++
          "\"\x7d")).explanation = .str ⟨List.replicate 501 'a'⟩ ∧
    (500 : ℕ) < (⟨List.replicate 501 'a'⟩ : String).length := ⟨rfl, by decide⟩

/-- C6 counterexample: in the rate-limited variant, a request with a
wrong shared secret inside the cooldown window is answered 429 (not 401),
and outside the window the 401 answer still updates the rate limiter's
last-accepted timestamp (0 → 20000). -/
theorem C6_counterexample_ratelimit_before_auth :
    (TradingWorker.handle ⟨0⟩ 5000 (some "secret") ⟨"POST", some "wrong", none⟩ 10 "t"
        (.fail "x") (.fail "y")).2.status = 429 ∧
    (TradingWorker.handle ⟨0⟩ 20000 (some "secret") ⟨"POST", some "wrong", none⟩ 10 "t"
        (.fail "x") (.fail "y")).2.status = 401 ∧
    (TradingWorker.handle ⟨0⟩ 20000 (some "secret") ⟨"POST", some "wrong", none⟩ 10 "t"
        (.fail "x") (.fail "y")).1.lastRequestTime = 20000 := ⟨rfl, rfl, rfl⟩

/-- C6 (amended): the orchestrator's order is rate-limit → method check →
authenticate → validate → …; a request inside the cooldown is answered
429 before authentication is consulted and leaves the timestamp
unchanged, while a wrong-secret request outside the cooldown is answered
401 but still updates the last-accepted timestamp to `now`. -/
theorem C6_amended_pipeline_order (st : TradingWorker.WorkerSt) (now : ℤ)
    (tok : Option String) (req : TradingWorker.ReqA) (hour : ℕ) (timeStr : String)
    (ai tg : FetchOutcome) :
    (now - st.lastRequestTime < 12000 →
      TradingWorker.handle st now tok req hour timeStr ai tg =
        (st, ⟨429, "\x7b\"error\":\"Too many requests\"\x7d"⟩)) ∧
    (¬ now - st.lastRequestTime < 12000 → req.method = "POST" →
      TradingWorker.authenticateRequest req tok = false →
      TradingWorker.handle st now tok req hour timeStr ai tg =
        (⟨now⟩, ⟨401, "\x7b\"error\":\"Unauthorized\"\x7d"⟩)) := by
  constructor
  · intro h
    simp [TradingWorker.handle, h]
  · intro h hm hauth
    simp [TradingWorker.handle, h, hm, hauth]

/-- Witness for C6 (amended): the 429 branch at concrete inputs. -/
theorem C6_amended_pipeline_order_witness :
    TradingWorker.handle ⟨0⟩ 5000 (some "s") ⟨"POST", some "w", none⟩ 10 "t"
        (.fail "a") (.fail "b") =
      (⟨0⟩, ⟨429, "\x7b\"error\":\"Too many requests\"\x7d"⟩) :=
  (C6_amended_pipeline_order ⟨0⟩ 5000 (some "s") ⟨"POST", some "w", none⟩ 10 "t"
    (.fail "a") (.fail "b")).1 (by decide)

/-- C8: the Fallback Signal Generator is a pure total function of
(ema9, ema21, rsi): buy when ema9 > ema21 and rsi < 70, sell when
ema9 < ema21 and rsi > 30, hold otherwise; its signal is always exactly
one of buy/sell/hold. -/
theorem C8_fallback_rule (e9 e21 r : ℚ) :
    TradingAI.generateFallbackSignal ⟨.num (.fin e9), .num (.fin e21), .num (.fin r)⟩ =
      (if e9 > e21 ∧ r < 70 then ⟨"buy", "Fallback: EMA bullish & RSI not overbought"⟩
       else if e9 < e21 ∧ r > 30 then ⟨"sell", "Fallback: EMA bearish & RSI not oversold"⟩
       else ⟨"hold", "Fallback: No clear trend"⟩ : TradingAI.SignalA) ∧
    ((TradingAI.generateFallbackSignal
        ⟨.num (.fin e9), .num (.fin e21), .num (.fin r)⟩).signal = "buy" ∨
     (TradingAI.generateFallbackSignal
        ⟨.num (.fin e9), .num (.fin e21), .num (.fin r)⟩).signal = "sell" ∨
     (TradingAI.generateFallbackSignal
        ⟨.num (.fin e9), .num (.fin e21), .num (.fin r)⟩).signal = "hold") := by
  have heq : TradingAI.generateFallbackSignal
      ⟨.num (.fin e9), .num (.fin e21), .num (.fin r)⟩ =
      (if e9 > e21 ∧ r < 70 then ⟨"buy", "Fallback: EMA bullish & RSI not overbought"⟩
       else if e9 < e21 ∧ r > 30 then ⟨"sell", "Fallback: EMA bearish & RSI not oversold"⟩
       else ⟨"hold", "Fallback: No clear trend"⟩ : TradingAI.SignalA) := by
    simp only [TradingAI.generateFallbackSignal, jsGtV_fin, jsLtV_fin]
    by_cases h1 : e21 < e9 <;> by_cases h2 : r < 70 <;>
      by_cases h3 : e9 < e21 <;> by_cases h4 : (30 : ℚ) < r <;>
      simp [h1, h2, h3, h4, gt_iff_lt]
  refine ⟨heq, ?_⟩
  rw [heq]
  split_ifs <;> simp

/-- C9: when the model reply fails parsing or shape validation, variant
A's interpreter invokes the fallback on an empty indicator object, so the
result is exactly hold with the fixed "no clear trend" explanation,
regardless of the ema9/ema21/rsi values in the request. -/
theorem C9_unparseable_gives_hold (s : String)
    (h : TradingAI.tryParseAICore (jsTrim (stripFences s)) = none) :
    TradingAI.tryParseAI s = ⟨"hold", "Fallback: No clear trend"⟩ := by
  simp only [TradingAI.tryParseAI, h]
  rfl

/-- Witness for C9 at the spec's example input `"not json"`. -/
theorem C9_unparseable_gives_hold_witness :
    TradingAI.tryParseAI "not json" = ⟨"hold", "Fallback: No clear trend"⟩ :=
  C9_unparseable_gives_hold "not json" (by decide)

/-- C10: a snapshot with ATR = 0 passes the validator's `[0, Infinity)`
range check, yet the Derived-Value Calculator divides by ATR, so both
support- and resistance-distances are `Infinity` (not finite) and the
near-support/near-resistance booleans are computed from those non-finite
values (`Infinity ≤ 1.5` being false). -/
theorem C10_atr_zero_nonfinite_distances :
    TradingAI.validateInputs dAtr0 = .ok () ∧
    TradingAI.indicatorOkB (.num (.fin 0)) (.fin 0) .inf = true ∧
    (TradingAI.calculateDerivedValues dAtr0 (.num (.fin 0)) 10).supportDistanceATR = .inf ∧
    (TradingAI.calculateDerivedValues dAtr0 (.num (.fin 0)) 10).resistanceDistanceATR = .inf ∧
    (TradingAI.calculateDerivedValues dAtr0 (.num (.fin 0)) 10).isNearSupport = false ∧
    (TradingAI.calculateDerivedValues dAtr0 (.num (.fin 0)) 10).isNearResistance = false :=
  ⟨rfl, rfl, rfl, rfl, rfl, rfl⟩

/-- C1 counterexample: in variant B a model-gateway failure is not
absorbed — with valid auth, method and body (validation passes), a failed
fetch to the model endpoint makes the handler answer 500, not 200. -/
theorem C1_counterexample_gateway_failure_500 :
    (IndexJs.handleRequest [] 0 (some "tok") ⟨"POST", some "tok", some bodyGood⟩
      (.fail "network down") (.resp 200 "ok")).1.status = 500 := rfl


/-- Shape of a successful variant-A parse: the signal is one of the three
enum values (it passed the lowercased membership check) and the
explanation is either the placeholder or a 500-character-truncated
string. -/
theorem tryParseAICore_props (cl : String) (sig : TradingAI.SignalA)
    (h : TradingAI.tryParseAICore cl = some sig) :
    (sig.signal = "buy" ∨ sig.signal = "sell" ∨ sig.signal = "hold") ∧
    (sig.explanation = "No explanation" ∨
      ∃ v : JVal, sig.explanation = jsSubstring0 (toStr v) 500) := by
  unfold TradingAI.tryParseAICore at h
  repeat' split at h
  all_goals try exact Option.noConfusion h
  all_goals replace h := Option.some.inj h
  all_goals subst h
  all_goals refine ⟨by simp_all, ?_⟩
  · exact Or.inr ⟨_, rfl⟩
  · exact Or.inl rfl

/-- Shape of a successful variant-B parse: the signal is one of the three
enum values and a falsy `confidence` property defaults to "medium". -/
theorem parseAIResponseCore_props (parsed : JVal) (sig : IndexJs.SignalB)
    (h : IndexJs.parseAIResponseCore parsed = some sig) :
    (sig.signal = "buy" ∨ sig.signal = "sell" ∨ sig.signal = "hold") ∧
    (truthy ((getProp parsed "confidence").getD .undefined) = false →
      sig.confidence = .str "medium") := by
  unfold IndexJs.parseAIResponseCore at h
  repeat' split at h
  all_goals try exact Option.noConfusion h
  all_goals replace h := Option.some.inj h
  all_goals subst h
  all_goals refine ⟨by simp_all, fun hf => by simp_all⟩

/-- C7: both Response Interpreters are total over raw text: for every
input string the resulting signal field is one of buy/sell/hold and no
error escapes; code fences are stripped and the signal lowercased (shown
on the spec's fenced example); and on any parse failure each interpreter
returns its deterministic hold-biased fallback — variant A the fixed
`hold`/"Fallback: No clear trend" signal, variant B the fixed
`hold`/low/"Error parsing AI response" signal. -/
theorem C7_interpreter_total (s : String) :
    ((TradingAI.tryParseAI s).signal = "buy" ∨ (TradingAI.tryParseAI s).signal = "sell" ∨
      (TradingAI.tryParseAI s).signal = "hold") ∧
    ((IndexJs.parseAIResponse s).signal = "buy" ∨ (IndexJs.parseAIResponse s).signal = "sell" ∨
      (IndexJs.parseAIResponse s).signal = "hold") ∧
    (TradingAI.tryParseAICore (jsTrim (stripFences s)) = none →
      TradingAI.tryParseAI s = ⟨"hold", "Fallback: No clear trend"⟩) ∧
    ((parseJson (jsTrim (stripFences s))).bind IndexJs.parseAIResponseCore = none →
      IndexJs.parseAIResponse s = ⟨"hold", .str "low", .str "Error parsing AI response"⟩) ∧
    TradingAI.tryParseAI "\x60\x60\x60json\n\x7b\"signal\":\"BUY\",\"explanation\":\"x\"\x7d\n\x60\x60\x60" =
      ⟨"buy", "x"⟩ ∧
    IndexJs.parseAIResponse "\x60\x60\x60json\n\x7b\"signal\":\"BUY\",\"explanation\":\"x\"\x7d\n\x60\x60\x60" =
      ⟨"buy", .str "medium", .str "x"⟩ := by
  refine ⟨?_, ?_, ?_, ?_, rfl, rfl⟩
  · unfold TradingAI.tryParseAI
    cases hc : TradingAI.tryParseAICore (jsTrim (stripFences s))
    · simp only [hc]
      exact Or.inr (Or.inr rfl)
    · case some sig =>
        simp only [hc]
        exact (tryParseAICore_props _ _ hc).1
  · unfold IndexJs.parseAIResponse
    cases hb : (parseJson (jsTrim (stripFences s))).bind IndexJs.parseAIResponseCore
    · simp only [hb]
      exact Or.inr (Or.inr trivial)
    · case some sig =>
        simp only [hb]
        obtain ⟨parsed, _hp, hcore⟩ := Option.bind_eq_some.mp hb
        exact (parseAIResponseCore_props parsed sig hcore).1
  · intro h
    simp only [TradingAI.tryParseAI, h]
    rfl
  · intro h
    unfold IndexJs.parseAIResponse
    rw [h]

/-- Witness for C7: a concrete unparseable reply reaches both
interpreters' hold fallbacks. -/
theorem C7_interpreter_total_witness :
    TradingAI.tryParseAI "gibberish" = ⟨"hold", "Fallback: No clear trend"⟩ ∧
    IndexJs.parseAIResponse "gibberish" =
      ⟨"hold", .str "low", .str "Error parsing AI response"⟩ :=
  ⟨(C7_interpreter_total "gibberish").2.2.1 (by rfl),
   (C7_interpreter_total "gibberish").2.2.2.1 (by rfl)⟩

/-- C5 (amended): the 500-character explanation truncation exists only in
variant A (`tryParseAI`), whose output explanation is always at most 500
characters; the confidence-defaults-to-"medium" rule exists only in
variant B (`parseAIResponse`), which performs no truncation, and variant
A's signal has no confidence field at all. -/
theorem C5_amended_truncation_and_default :
    (∀ s : String, (TradingAI.tryParseAI s).explanation.length ≤ 500) ∧
    (∀ (parsed : JVal) (sig : IndexJs.SignalB),
      IndexJs.parseAIResponseCore parsed = some sig →
      truthy ((getProp parsed "confidence").getD .undefined) = false →
      sig.confidence = .str "medium") := by
  constructor
  · intro s
    unfold TradingAI.tryParseAI
    cases hc : TradingAI.tryParseAICore (jsTrim (stripFences s))
    · simp only [hc]
      decide
    · case some sig =>
        simp only [hc]
        rcases (tryParseAICore_props _ _ hc).2 with he | ⟨v, he⟩
        · rw [he]
          decide
        · rw [he]
          show ((toStr v).data.take 500).length ≤ 500
          exact List.length_take_le 500 (toStr v).data
  · exact fun parsed sig h hf => (parseAIResponseCore_props parsed sig h).2 hf

/-- Witness for C5 (amended): a concrete reply for each half. -/
theorem C5_amended_witness :
    ((TradingAI.tryParseAI "not json").explanation.length ≤ 500) ∧
    (⟨"buy", JVal.str "medium", JVal.str "No explanation provided"⟩ :
        IndexJs.SignalB).confidence = .str "medium" :=
  ⟨C5_amended_truncation_and_default.1 "not json",
   C5_amended_truncation_and_default.2 (JVal.obj [("signal", JVal.str "buy")]) _ rfl rfl⟩

/-- C2 counterexample: variant A's validator performs no MACD numericity
check — a snapshot whose `macd` is the string `"not a number"` (all other
fields valid) is accepted, though the claim requires its rejection. -/
theorem C2_counterexample_macd_not_checked :
    TradingAI.validateInputs dMacdStr = .ok () ∧
    isNumberV dMacdStr.indicators.macd = false := ⟨rfl, rfl⟩

/-- C2 (amended): variant A's validator rejects exactly — each with its
own field-identifying message, checked in the order RSI, ADX, ATR, candle
order, prices — RSI or ADX non-numeric/NaN/outside [0,100], ATR
non-numeric/NaN/negative, high < low, and any price ≤ 0, succeeding on
every other snapshot; its verdict is independent of the MACD fields (that
numericity check exists only in variant B). -/
theorem C2_amended_validator_characterization (d : TradingAI.DataA) :
    (TradingAI.validateInputs d = .ok () ↔
      (TradingAI.indicatorOkB d.indicators.rsi (.fin 0) (.fin 100) = true ∧
       TradingAI.indicatorOkB d.adx (.fin 0) (.fin 100) = true ∧
       TradingAI.indicatorOkB d.atr (.fin 0) .inf = true ∧
       jsLtV d.ohlc.high d.ohlc.low = false ∧
       (jsLeV d.ohlc.openP (.num (.fin 0)) || jsLeV d.ohlc.high (.num (.fin 0)) ||
        jsLeV d.ohlc.low (.num (.fin 0)) || jsLeV d.ohlc.close (.num (.fin 0))) = false)) ∧
    (TradingAI.validateInputs d = .error "Invalid RSI: must be between 0-100" ↔
      TradingAI.indicatorOkB d.indicators.rsi (.fin 0) (.fin 100) = false) ∧
    (TradingAI.validateInputs d = .error "Invalid ADX: must be between 0-100" ↔
      (TradingAI.indicatorOkB d.indicators.rsi (.fin 0) (.fin 100) = true ∧
       TradingAI.indicatorOkB d.adx (.fin 0) (.fin 100) = false)) ∧
    (TradingAI.validateInputs d = .error "Invalid ATR: must be between 0-Infinity" ↔
      (TradingAI.indicatorOkB d.indicators.rsi (.fin 0) (.fin 100) = true ∧
       TradingAI.indicatorOkB d.adx (.fin 0) (.fin 100) = true ∧
       TradingAI.indicatorOkB d.atr (.fin 0) .inf = false)) ∧
    (TradingAI.validateInputs d = .error "Invalid OHLC: High must be >= Low" ↔
      (TradingAI.indicatorOkB d.indicators.rsi (.fin 0) (.fin 100) = true ∧
       TradingAI.indicatorOkB d.adx (.fin 0) (.fin 100) = true ∧
       TradingAI.indicatorOkB d.atr (.fin 0) .inf = true ∧
       jsLtV d.ohlc.high d.ohlc.low = true)) ∧
    (TradingAI.validateInputs d = .error "Invalid OHLC: Prices must be positive" ↔
      (TradingAI.indicatorOkB d.indicators.rsi (.fin 0) (.fin 100) = true ∧
       TradingAI.indicatorOkB d.adx (.fin 0) (.fin 100) = true ∧
       TradingAI.indicatorOkB d.atr (.fin 0) .inf = true ∧
       jsLtV d.ohlc.high d.ohlc.low = false ∧
       (jsLeV d.ohlc.openP (.num (.fin 0)) || jsLeV d.ohlc.high (.num (.fin 0)) ||
        jsLeV d.ohlc.low (.num (.fin 0)) || jsLeV d.ohlc.close (.num (.fin 0))) = true)) ∧
    (∀ m msig : JVal,
      TradingAI.validateInputs
        { d with indicators := { d.indicators with macd := m, macd_signal := msig } } =
        TradingAI.validateInputs d) := by
  cases h1 : TradingAI.indicatorOkB d.indicators.rsi (.fin 0) (.fin 100) <;>
    cases h2 : TradingAI.indicatorOkB d.adx (.fin 0) (.fin 100) <;>
    cases h3 : TradingAI.indicatorOkB d.atr (.fin 0) .inf <;>
    cases h4 : jsLtV d.ohlc.high d.ohlc.low <;>
    cases h5 : (jsLeV d.ohlc.openP (.num (.fin 0)) || jsLeV d.ohlc.high (.num (.fin 0)) ||
        jsLeV d.ohlc.low (.num (.fin 0)) || jsLeV d.ohlc.close (.num (.fin 0))) <;>
    simp_all [TradingAI.validateInputs, TradingAI.validateIndicator]

/-- Witness for C2 (amended): ADX = -1 is rejected with the
ADX-identifying message. -/
theorem C2_amended_witness :
    TradingAI.validateInputs { dGood with adx := .num (.fin (-1)) } =
      .error "Invalid ADX: must be between 0-100" :=
  ((C2_amended_validator_characterization
    { dGood with adx := .num (.fin (-1)) }).2.2.1).mpr ⟨rfl, rfl⟩

/-- C3 counterexample: the pattern label is interpolated into the prompt
unsanitized — with `pattern = "{evil}"` the built prompt contains the
substring `{evil}` verbatim, although `sanitizeForPrompt` (applied only
to the symbol) would have stripped those braces. -/
theorem C3_counterexample_pattern_unsanitized :
    TradingAI.sanitizeForPrompt "\x7bevil\x7d" = "evil" ∧
    (TradingAI.buildAIPrompt dEvil derEvil).isSome = true ∧
    hasSub "\x7bevil\x7d".data
      ((TradingAI.buildAIPrompt dEvil derEvil).getD "").data = true := by
  refine ⟨rfl, rfl, ?_⟩
  decide

/-- C3 (amended): only the symbol is sanitized before interpolation into
the part_000 prompt: every successfully built prompt has the shape
`head ++ sanitizeForPrompt symbol ++ rest`, and sanitized text contains
none of the stripped characters; the pattern label is interpolated raw
(see the counterexample). -/
theorem C3_amended_only_symbol_sanitized :
    (∀ (d : TradingAI.DataA) (der : TradingAI.Derived) (p : String),
      TradingAI.buildAIPrompt d der = some p →
      ∃ post, p = TradingAI.promptHead ++ (TradingAI.sanitizeForPrompt d.symbol ++ post)) ∧
    (∀ s : String,
      ((TradingAI.sanitizeForPrompt s).data.all
        (fun c => !(TradingAI.badPromptChars.contains c))) = true) := by
  constructor
  · intro d der p hp
    unfold TradingAI.buildAIPrompt at hp
    cases hn : TradingAI.promptNums d der <;> rw [hn] at hp
    · exact Option.noConfusion hp
    · exact ⟨_, (Option.some.inj hp).symm⟩
  · intro s
    show ((s.data.filter fun c => !(TradingAI.badPromptChars.contains c)).all
      fun c => !(TradingAI.badPromptChars.contains c)) = true
    rw [List.all_eq_true]
    intro c hc
    exact (List.mem_filter.mp hc).2

/-- Witness for C3 (amended) on the `dGood` fixture. -/
theorem C3_amended_witness :
    ∃ post, (TradingAI.buildAIPrompt dGood derGood).getD "" =
      TradingAI.promptHead ++ (TradingAI.sanitizeForPrompt dGood.symbol ++ post) :=
  C3_amended_only_symbol_sanitized.1 dGood derGood
    ((TradingAI.buildAIPrompt dGood derGood).getD "") rfl

/-- C1 (amended): only in the part_000 variant are gateway, parse and
notifier failures fully absorbed: once the rate limit, method check,
authentication and required-field checks pass (and the candle close is a
number, so the notification message builds), the handler answers 200 for
every model-fetch and Telegram-fetch outcome, and on a gateway failure
the body is exactly the stringified deterministic fallback signal built
from the request's indicators.  (In index.js a gateway or notifier
transport failure yields 500 — see the counterexample.) -/
theorem C1_amended_variantA_absorbs (st : TradingWorker.WorkerSt) (now : ℤ)
    (tok : Option String) (req : TradingWorker.ReqA) (d : TradingAI.DataA) (hour : ℕ)
    (timeStr : String) (ai tg : FetchOutcome)
    (hrate : ¬ now - st.lastRequestTime < 12000) (hm : req.method = "POST")
    (hauth : TradingWorker.authenticateRequest req tok = true)
    (hbody : req.body = some d)
    (hreq : TradingWorker.firstMissingField d = none)
    (hclose : ∃ n : JNum, d.ohlc.close = .num n) :
    ((TradingWorker.handle st now tok req hour timeStr ai tg).2.status = 200) ∧
    (∀ m, ai = .fail m →
      (TradingWorker.handle st now tok req hour timeStr ai tg).2.body =
        TradingAI.jsonStringifySignalA (TradingAI.generateFallbackSignal
          ⟨d.indicators.ema9, d.indicators.ema21, d.indicators.rsi⟩)) := by
  obtain ⟨n, hn⟩ := hclose
  have hfix : TradingWorker.handle st now tok req hour timeStr ai tg =
      (⟨now⟩, ⟨200, TradingAI.jsonStringifySignalA
        (TradingAI.tryParseAI (TradingAI.callAI d hour ai))⟩) := by
    unfold TradingWorker.handle TradingWorker.notificationMessage
    rcases n <;> simp [hrate, hm, hauth, hbody, hreq, hn, toFixedV]
  refine ⟨by rw [hfix], ?_⟩
  intro m hm'
  subst hm'
  rw [hfix]
  show TradingAI.jsonStringifySignalA
      (TradingAI.tryParseAI (TradingAI.callAI d hour (.fail m))) = _
  rw [callAI_fail, tryParseAI_stringify_fallback]

/-- Witness for C1 (amended): both outbound calls fail, yet the response
is 200. -/
theorem C1_amended_variantA_absorbs_witness :
    (TradingWorker.handle ⟨0⟩ 20000 (some "t") ⟨"POST", some "t", some dGood⟩ 10 "12:00"
      (.fail "down") (.fail "down")).2.status = 200 :=
  (C1_amended_variantA_absorbs ⟨0⟩ 20000 (some "t") ⟨"POST", some "t", some dGood⟩ dGood
    10 "12:00" (.fail "down") (.fail "down") (by decide) rfl rfl rfl rfl
    ⟨.fin (mkRat 3 2), rfl⟩).1

end Trading
